import Mathlib

/-!
Shallow embedding of `src/atom_s3_gyro_gps.ino` (AtomS3 Gyroflow logger).

Modelling conventions:
* C `float` values are modelled as `ℚ`; the source's numeric literals are
  carried over verbatim as rational literals.
* Hardware reads (IMU registers, `micros()`, `gettimeofday`) are passed to the
  embedded functions as explicit parameters.
* The SD card filesystem is an association list from filename to file content;
  a file's content is its list of header lines (raw strings) together with the
  list of data records appended by flushes.  Whether `SD.open` succeeds is an
  environment flag `openOk` carried in the state, making the model
  deterministic; `imuOk` likewise models whether `M5.Imu.begin()` succeeds.
* Display/serial output and the GPS/menu machinery are omitted: no claim
  depends on them beyond the Start/Stop entry of `handleMainMenuSelection`,
  which is embedded as `startStopToggle`.
-/

/-- Capacity of the ring buffer; `GYRO_BUFFER_SIZE` in the source. -/
def GYRO_BUFFER_SIZE : Nat := 1000

/-- Sampling period in microseconds; `GYRO_LOG_INTERVAL` in the source. -/
def GYRO_LOG_INTERVAL : Nat := 1000

/-- Modulus of the 32-bit `unsigned long` arithmetic used for `micros()`. -/
def UINT32_MOD : Nat := 4294967296

/-- Fixed log file name; `LOG_FILENAME` in the source. -/
def LOG_FILENAME : String := "/GYRODATA.CSV"

/-- Scale factor applied to gyro readings; `GYRO_SCALE_FACTOR` in the source:
`(1000.0f * 3.14159265358979323846f / 180.0f)`, deg/s to mrad/s. -/
def GYRO_SCALE_FACTOR : ℚ :=
  1000 * (314159265358979323846 / 100000000000000000000) / 180

/-- Header line written by `writeGyroflowCsvHeader` in the source. -/
def csvHeaderLine : String := "timestamp,gyro_x,gyro_y,gyro_z,accl_x,accl_y,accl_z"

/-- First line of the multi-line header format of section 6 of the spec. -/
def gyroflowMagicLine : String := "GYROFLOW IMU LOG"

/-- Filename used in the non-overwrite naming scenario of the spec. -/
def file00001 : String := "00001.csv"

/-- Filename used in the non-overwrite naming scenario of the spec. -/
def file00002 : String := "00002.csv"

/-- Filename used in the non-overwrite naming scenario of the spec. -/
def file00003 : String := "00003.csv"

/-- Filename the spec expects the fourth session to select. -/
def file00004 : String := "00004.csv"

/-- Record type of the ring buffer; `struct GyroData` in the source. -/
structure GyroData where
  timestamp : Int
  gyroX : ℚ
  gyroY : ℚ
  gyroZ : ℚ
  accX : ℚ
  accY : ℚ
  accZ : ℚ
  deriving DecidableEq, Repr

/-- Content of one file on the SD card: header lines (as written by
`writeGyroflowCsvHeader`) and the data records appended by buffer flushes. -/
structure FileContent where
  lines : List String
  recs : List GyroData
  deriving DecidableEq, Repr

/-- Filesystem of the SD card: an association list from filename to content. -/
abbrev FS := List (String × FileContent)

/-- Lookup of a file by name; models `SD.exists` and read access. -/
def FS.lookupF (fs : FS) (name : String) : Option FileContent :=
  match fs with
  | [] => none
  | (n, c) :: rest => if n = name then some c else FS.lookupF rest name

/-- Deletion of a file by name; models `SD.remove`. -/
def FS.removeF (fs : FS) (name : String) : FS :=
  match fs with
  | [] => []
  | (n, c) :: rest => if n = name then FS.removeF rest name
                      else (n, c) :: FS.removeF rest name

/-- Models `SD.open(name, FILE_WRITE)` (ESP32 `"w"` mode) followed by writing
`content` and closing: truncate/create the file with the given content. -/
def FS.writeTrunc (fs : FS) (name : String) (content : FileContent) : FS :=
  (name, content) :: FS.removeF fs name

/-- Models `SD.open(name, FILE_APPEND)` (ESP32 `"a"` mode) followed by
printing the given records and closing: append, creating when missing. -/
def FS.appendRecs (fs : FS) (name : String) (rs : List GyroData) : FS :=
  match FS.lookupF fs name with
  | some c => FS.writeTrunc fs name ⟨c.lines, c.recs ++ rs⟩
  | none => FS.writeTrunc fs name ⟨[], rs⟩

/-- Mutable program state of the sketch (the globals the claims touch),
together with the environment flags `openOk` (does `SD.open` succeed) and
`imuOk` (does `M5.Imu.begin()` succeed). -/
structure LoggerState where
  sdCardAvailable : Bool
  openOk : Bool
  imuOk : Bool
  gyroEnabled : Bool
  recordingActive : Bool
  lastGyroLogTime : Nat
  fs : FS
  gyroBuffer : Nat → GyroData
  bufferIndex : Nat
  bufferFull : Bool

/-- Record stored by `readAndBufferGyroData` for raw IMU readings
`(gx,gy,gz)` in deg/s and `(ax,ay,az)` in g at timestamp `t`:
gyro axes are multiplied by `GYRO_SCALE_FACTOR` (deg/s to mrad/s),
accel axes are stored unchanged. -/
def storedRec (t : Int) (gx gy gz ax ay az : ℚ) : GyroData :=
  ⟨t, gx * GYRO_SCALE_FACTOR, gy * GYRO_SCALE_FACTOR, gz * GYRO_SCALE_FACTOR,
   ax, ay, az⟩

/-- Embeds `readAndBufferGyroData` from the source: read the IMU (readings
passed as parameters), store a scaled record at `bufferIndex`, advance the
index modulo `GYRO_BUFFER_SIZE`, and set `bufferFull` when it wraps to 0. -/
def readAndBufferGyroData (t : Int) (gx gy gz ax ay az : ℚ)
    (s : LoggerState) : LoggerState :=
  if s.gyroEnabled = false then s
  else
    let buf := Function.update s.gyroBuffer s.bufferIndex
      (storedRec t gx gy gz ax ay az)
    let idx := (s.bufferIndex + 1) % GYRO_BUFFER_SIZE
    { s with gyroBuffer := buf, bufferIndex := idx,
             bufferFull := if idx = 0 then true else s.bufferFull }

/-- List of records `writeGyroBufferToSD` emits: `count` records starting
at `startIdx`, wrapping modulo `GYRO_BUFFER_SIZE` (loop body of the source). -/
def flushedList (s : LoggerState) : List GyroData :=
  let count := if s.bufferFull then GYRO_BUFFER_SIZE else s.bufferIndex
  let startIdx := if s.bufferFull then s.bufferIndex else 0
  (List.range count).map
    (fun i => s.gyroBuffer ((startIdx + i) % GYRO_BUFFER_SIZE))

/-- Embeds `writeGyroBufferToSD` from the source: early return when the SD
card is unavailable or the buffer is empty; return unchanged when the
append-open fails; otherwise append the buffered records (oldest first) to
the log file and reset `bufferIndex` and `bufferFull`. -/
def writeGyroBufferToSD (s : LoggerState) : LoggerState :=
  if s.sdCardAvailable = false ∨ (s.bufferFull = false ∧ s.bufferIndex = 0)
  then s
  else if s.openOk = false then s
  else
    { s with fs := FS.appendRecs s.fs LOG_FILENAME (flushedList s),
             bufferIndex := 0, bufferFull := false }

/-- Embeds `writeGyroflowCsvHeader` from the source: open `LOG_FILENAME` in
write (truncate) mode and write the single column-header line; on open
failure the error is only logged and the state is unchanged. -/
def writeGyroflowCsvHeader (s : LoggerState) : LoggerState :=
  if s.sdCardAvailable = false then s
  else if s.openOk = false then s
  else { s with fs := FS.writeTrunc s.fs LOG_FILENAME ⟨[csvHeaderLine], []⟩ }

/-- Embeds `setGyroEnabled` from the source, restricted to its effect on the
state flags: enabling calls `M5.Imu.begin()` and only sets the flag on
success. -/
def setGyroEnabled (enable : Bool) (s : LoggerState) : LoggerState :=
  if enable = true ∧ s.gyroEnabled = false then
    if s.imuOk then { s with gyroEnabled := true } else s
  else if enable = false ∧ s.gyroEnabled = true then
    { s with gyroEnabled := false }
  else s

/-- Embeds `startRecording` from the source: when the SD card is available,
remove any existing `LOG_FILENAME` and write a fresh header; reset the
buffer; make sure the gyro is enabled.  No failure is checked: the function
has no way to abort. -/
def startRecording (s : LoggerState) : LoggerState :=
  let s1 :=
    if s.sdCardAvailable then
      let fs1 := if (FS.lookupF s.fs LOG_FILENAME).isSome
                 then FS.removeF s.fs LOG_FILENAME else s.fs
      writeGyroflowCsvHeader { s with fs := fs1 }
    else s
  let s2 := { s1 with bufferIndex := 0, bufferFull := false }
  if s2.gyroEnabled = false then setGyroEnabled true s2 else s2

/-- Embeds `stopRecording` from the source: flush the remaining buffer.
Nothing else: no state-machine guard, no close beyond the flush's own
close. -/
def stopRecording (s : LoggerState) : LoggerState :=
  writeGyroBufferToSD s

/-- Embeds case 0 of `handleMainMenuSelection` (the Start/Stop Recording
entry): toggle `recordingActive` first, then call `startRecording` or
`stopRecording` according to the new value. -/
def startStopToggle (s : LoggerState) : LoggerState :=
  let s1 := { s with recordingActive := !s.recordingActive }
  if s1.recordingActive then startRecording s1 else stopRecording s1

/-- Raw IMU readings delivered by `getGyroData`/`getAccelData` together with
the `getCurrentMicros` timestamp, passed to one sampling step. -/
structure RawSample where
  t : Int
  gx : ℚ
  gy : ℚ
  gz : ℚ
  ax : ℚ
  ay : ℚ
  az : ℚ
  deriving DecidableEq, Repr, Inhabited

/-- Appends one raw sample through `readAndBufferGyroData`. -/
def appendRaw (r : RawSample) (s : LoggerState) : LoggerState :=
  readAndBufferGyroData r.t r.gx r.gy r.gz r.ax r.ay r.az s

/-- Appends a list of raw samples in order. -/
def appendAll (rs : List RawSample) (s : LoggerState) : LoggerState :=
  rs.foldl (fun st r => appendRaw r st) s

/-- Record that `readAndBufferGyroData` stores for the raw sample `r`. -/
def storedOf (r : RawSample) : GyroData :=
  storedRec r.t r.gx r.gy r.gz r.ax r.ay r.az

/-- Unsigned 32-bit subtraction, as computed by `currentMicros -
lastGyroLogTime` on `unsigned long` operands. -/
def usub32 (a b : Nat) : Nat :=
  (a % UINT32_MOD + UINT32_MOD - b % UINT32_MOD) % UINT32_MOD

/-- Embeds the gyro-sampling fragment of `loop()` (lines 778-792 of the
source): when recording with the gyro enabled and at least
`GYRO_LOG_INTERVAL` microseconds have elapsed since `lastGyroLogTime`,
record the pass time, read and buffer one sample, and flush when the buffer
has become full.  Otherwise the pass leaves the state unchanged. -/
def loopGyroStep (now : Nat) (r : RawSample) (s : LoggerState) : LoggerState :=
  if s.recordingActive = true ∧ s.gyroEnabled = true then
    if GYRO_LOG_INTERVAL ≤ usub32 now s.lastGyroLogTime then
      let s1 := { s with lastGyroLogTime := now }
      let s2 := appendRaw r s1
      if s2.bufferFull then writeGyroBufferToSD s2 else s2
    else s
  else s

/-- Runs a sequence of main-loop passes, each with its `micros()` value and
the raw sample the IMU would deliver. -/
def runPasses (ps : List (Nat × RawSample)) (s : LoggerState) : LoggerState :=
  ps.foldl (fun st p => loopGyroStep p.1 p.2 st) s

/-- Counts, along a run of main-loop passes, the passes in which the
sampling condition fires (so exactly the samples read and buffered). -/
def countSamples (ps : List (Nat × RawSample)) (s : LoggerState) : Nat :=
  match ps with
  | [] => 0
  | p :: rest =>
    (if s.recordingActive = true ∧ s.gyroEnabled = true ∧
        GYRO_LOG_INTERVAL ≤ usub32 p.1 s.lastGyroLogTime then 1 else 0)
      + countSamples rest (loopGyroStep p.1 p.2 s)

/-- Modelled from the spec: the repository source contains no
CalibrationStore at all (no calibrate, save or load code exists in `src/`).
Following section 4.3, the offsets are six fields in fixed order
`(gx,gy,gz,ax,ay,az)`. -/
structure CalibrationOffsets where
  gx : ℚ
  gy : ℚ
  gz : ℚ
  ax : ℚ
  ay : ℚ
  az : ℚ

/-- Modelled from the spec: `save(offsets)` serializes exactly six decimal
fields in fixed order `(gx,gy,gz,ax,ay,az)`; each field is written with six
decimal digits (round to nearest), represented here as the integer numerator
over 10^6. -/
def saveCalibration (o : CalibrationOffsets) : List Int :=
  [round (o.gx * 1000000), round (o.gy * 1000000), round (o.gz * 1000000),
   round (o.ax * 1000000), round (o.ay * 1000000), round (o.az * 1000000)]

/-- Modelled from the spec: `load()` validates that exactly six numeric
fields were parsed and returns them in fixed order; on anything else it
returns "no calibration available". -/
def loadCalibration (fields : List Int) : Option CalibrationOffsets :=
  match fields with
  | [a, b, c, d, e, f] =>
      some ⟨(a : ℚ) / 1000000, (b : ℚ) / 1000000, (c : ℚ) / 1000000,
            (d : ℚ) / 1000000, (e : ℚ) / 1000000, (f : ℚ) / 1000000⟩
  | _ => none

/-- Concrete all-zero record used by concrete states below. -/
def rec0 : GyroData := ⟨0, 0, 0, 0, 0, 0, 0⟩

/-- Concrete base state: SD card present, opens succeeding, gyro enabled,
not recording, empty filesystem, empty buffer. -/
def baseState : LoggerState :=
  { sdCardAvailable := true, openOk := true, imuOk := true,
    gyroEnabled := true, recordingActive := false, lastGyroLogTime := 0,
    fs := [], gyroBuffer := fun _ => rec0, bufferIndex := 0,
    bufferFull := false }

/-- Concrete content of a previously recorded session file. -/
def priorData : FileContent := ⟨[csvHeaderLine], [rec0]⟩

/-- Concrete filesystem holding three numbered session files plus a prior
recording under the fixed log file name. -/
def fsWithSessions : FS :=
  [(file00001, priorData), (file00002, priorData), (file00003, priorData),
   (LOG_FILENAME, priorData)]

/-- Looking up the file just written by `FS.writeTrunc` yields its content. -/
theorem FS.lookupF_writeTrunc_self (fs : FS) (name : String) (c : FileContent) :
    FS.lookupF (FS.writeTrunc fs name c) name = some c := by
  simp [FS.writeTrunc, FS.lookupF]

/-- Removing a file makes its lookup fail. -/
theorem FS.lookupF_removeF_self (fs : FS) (name : String) :
    FS.lookupF (FS.removeF fs name) name = none := by
  induction fs with
  | nil => rfl
  | cons hd tl ih =>
    obtain ⟨n, c⟩ := hd
    by_cases h : n = name
    · simpa [FS.removeF, h] using ih
    · simpa [FS.removeF, FS.lookupF, h] using ih

/-- Removing one file leaves lookups of other names unchanged. -/
theorem FS.lookupF_removeF_ne (fs : FS) (rem name : String) (h : name ≠ rem) :
    FS.lookupF (FS.removeF fs rem) name = FS.lookupF fs name := by
  induction fs with
  | nil => rfl
  | cons hd tl ih =>
    obtain ⟨n, c⟩ := hd
    by_cases h1 : n = rem
    · subst h1
      simpa [FS.removeF, FS.lookupF, Ne.symm h] using ih
    · by_cases h2 : n = name
      · subst h2
        simp [FS.removeF, FS.lookupF, h, h1]
      · simpa [FS.removeF, FS.lookupF, h1, h2] using ih

/-- Truncating one file leaves lookups of other names unchanged. -/
theorem FS.lookupF_writeTrunc_ne (fs : FS) (wname name : String)
    (c : FileContent) (h : name ≠ wname) :
    FS.lookupF (FS.writeTrunc fs wname c) name = FS.lookupF fs name := by
  simp [FS.writeTrunc, FS.lookupF, Ne.symm h, FS.lookupF_removeF_ne fs wname name h]

/-- A flush either empties the buffer or leaves the state untouched. -/
theorem flush_state_cases (s : LoggerState) :
    ((writeGyroBufferToSD s).bufferIndex = 0 ∧
     (writeGyroBufferToSD s).bufferFull = false) ∨ writeGyroBufferToSD s = s := by
  unfold writeGyroBufferToSD
  split_ifs with h1 h2
  · right; rfl
  · right; rfl
  · left; exact ⟨rfl, rfl⟩

/-- Flushing with an empty, unwrapped buffer is the identity. -/
theorem stopRecording_of_empty (s : LoggerState) (h1 : s.bufferIndex = 0)
    (h2 : s.bufferFull = false) : stopRecording s = s := by
  unfold stopRecording writeGyroBufferToSD
  simp [h1, h2]

/-- C10: a failed flush is atomic with respect to buffer state: when the SD
card is unavailable or the append-open fails, `writeGyroBufferToSD` returns
with the state — in particular `bufferIndex`, `bufferFull` and every
buffered record — unchanged, so the staged data is not discarded by the
failure itself. -/
theorem flush_failure_atomic (s : LoggerState)
    (h : s.sdCardAvailable = false ∨ s.openOk = false) :
    writeGyroBufferToSD s = s := by
  unfold writeGyroBufferToSD
  rcases h with h | h <;> simp [h]

/-- Witness for `flush_failure_atomic` at a concrete state. -/
theorem flush_failure_atomic_witness :
    writeGyroBufferToSD { baseState with openOk := false }
      = { baseState with openOk := false } :=
  flush_failure_atomic { baseState with openOk := false } (Or.inr rfl)

/-- C7: `stopRecording` is idempotent: for every state, stopping twice in a
row leaves the same file contents and program state as stopping once, and
stopping in an Idle state (empty, unwrapped buffer) changes nothing. -/
theorem stop_idempotent :
    (∀ s : LoggerState, stopRecording (stopRecording s) = stopRecording s) ∧
    (∀ s : LoggerState, s.bufferIndex = 0 → s.bufferFull = false →
      stopRecording s = s) := by
  constructor
  · intro s
    rcases flush_state_cases s with ⟨h1, h2⟩ | h
    · exact stopRecording_of_empty _ h1 h2
    · show stopRecording (stopRecording s) = stopRecording s
      unfold stopRecording
      rw [h]
      exact h
  · exact fun s h1 h2 => stopRecording_of_empty s h1 h2

/-- Witness for `stop_idempotent` at a concrete Idle state. -/
theorem stop_idempotent_witness : stopRecording baseState = baseState :=
  stop_idempotent.2 baseState rfl rfl

/-- C3 counterexample: buffering a raw gyro reading of 1 deg/s stores a gyro
field different from 1 — the value written is not the sensor's native
degrees/second but the reading scaled by `GYRO_SCALE_FACTOR`. -/
theorem gyro_units_counterexample :
    ((readAndBufferGyroData 0 1 0 0 0 0 0 baseState).gyroBuffer 0).gyroX ≠ 1 := by
  have h : ((readAndBufferGyroData 0 1 0 0 0 0 0 baseState).gyroBuffer 0).gyroX
      = GYRO_SCALE_FACTOR := by
    simp [readAndBufferGyroData, baseState, storedRec]
  rw [h]
  norm_num [GYRO_SCALE_FACTOR]

/-- C3 amended: the record buffered for a sample has its three gyro fields
equal to the raw readings multiplied by `GYRO_SCALE_FACTOR` (deg/s to
mrad/s), and its three accel fields equal to the raw readings in g. -/
theorem gyro_scaled_accel_raw (s : LoggerState) (t : Int) (gx gy gz ax ay az : ℚ)
    (h : s.gyroEnabled = true) :
    (readAndBufferGyroData t gx gy gz ax ay az s).gyroBuffer s.bufferIndex =
      ⟨t, gx * GYRO_SCALE_FACTOR, gy * GYRO_SCALE_FACTOR, gz * GYRO_SCALE_FACTOR,
       ax, ay, az⟩ := by
  unfold readAndBufferGyroData
  simp [h, storedRec]

/-- Witness for `gyro_scaled_accel_raw` at concrete readings. -/
theorem gyro_scaled_accel_raw_witness :
    (readAndBufferGyroData 0 1 2 3 4 5 6 baseState).gyroBuffer
        baseState.bufferIndex =
      ⟨0, 1 * GYRO_SCALE_FACTOR, 2 * GYRO_SCALE_FACTOR, 3 * GYRO_SCALE_FACTOR,
       4, 5, 6⟩ :=
  gyro_scaled_accel_raw baseState 0 1 2 3 4 5 6 rfl

/-- Concrete state whose ring buffer has wrapped (full) and whose flush
fails because the append-open fails. -/
def fullState : LoggerState := { baseState with openOk := false, bufferFull := true }

/-- C4 counterexample: on a full buffer whose flush fails, the next append is
not rejected: it overwrites the oldest not-yet-flushed record (slot 0) and
advances the index, while the failed flush left the buffer marked full. -/
theorem append_not_rejected_counterexample :
    (readAndBufferGyroData 5 1 0 0 0 0 0 fullState).gyroBuffer 0 ≠
      fullState.gyroBuffer 0 ∧
    (readAndBufferGyroData 5 1 0 0 0 0 0 fullState).bufferIndex = 1 ∧
    (writeGyroBufferToSD fullState).bufferFull = true := by
  refine ⟨?_, by decide, by decide⟩
  intro heq
  have h1 : ((readAndBufferGyroData 5 1 0 0 0 0 0 fullState).gyroBuffer 0).timestamp
      = (5 : Int) := by
    simp [readAndBufferGyroData, fullState, baseState, storedRec]
  rw [heq] at h1
  simp [fullState, baseState, rec0] at h1

/-- C4 amended: the ring buffer maintains `bufferIndex < GYRO_BUFFER_SIZE`
under appends and flushes; appends are never rejected (when full, the ring
overwrites the oldest record instead); and a successful flush of a full
buffer resets `bufferIndex` to 0 and `bufferFull` to false. -/
theorem buffer_ring_invariant :
    (∀ (t : Int) (gx gy gz ax ay az : ℚ) (s : LoggerState),
        s.bufferIndex < GYRO_BUFFER_SIZE →
        (readAndBufferGyroData t gx gy gz ax ay az s).bufferIndex <
          GYRO_BUFFER_SIZE) ∧
    (∀ s : LoggerState, s.bufferIndex < GYRO_BUFFER_SIZE →
        (writeGyroBufferToSD s).bufferIndex < GYRO_BUFFER_SIZE) ∧
    (∀ s : LoggerState, s.sdCardAvailable = true → s.openOk = true →
        s.bufferFull = true →
        (writeGyroBufferToSD s).bufferIndex = 0 ∧
        (writeGyroBufferToSD s).bufferFull = false) := by
  refine ⟨?_, ?_, ?_⟩
  · intro t gx gy gz ax ay az s h
    by_cases hg : s.gyroEnabled = false
    · simpa [readAndBufferGyroData, hg] using h
    · simp only [readAndBufferGyroData, hg, if_false]
      exact Nat.mod_lt _ (by norm_num [GYRO_BUFFER_SIZE])
  · intro s h
    rcases flush_state_cases s with ⟨h1, _⟩ | heq
    · rw [h1]
      norm_num [GYRO_BUFFER_SIZE]
    · rw [heq]
      exact h
  · intro s h1 h2 h3
    unfold writeGyroBufferToSD
    simp [h1, h2, h3]

/-- Witness for `buffer_ring_invariant` at a concrete full state that
flushes successfully. -/
theorem buffer_ring_invariant_witness :
    (writeGyroBufferToSD { baseState with bufferFull := true }).bufferIndex = 0 ∧
    (writeGyroBufferToSD { baseState with bufferFull := true }).bufferFull
      = false :=
  buffer_ring_invariant.2.2 { baseState with bufferFull := true } rfl rfl rfl

/-- Under an available SD card and a succeeding open, `startRecording`
truncates `LOG_FILENAME` (after removing any prior file of that name) to the
fresh single-line header, leaving every other file alone. -/
theorem startRecording_fs_eq (s : LoggerState) (hsd : s.sdCardAvailable = true)
    (hopen : s.openOk = true) :
    (startRecording s).fs =
      FS.writeTrunc
        (if (FS.lookupF s.fs LOG_FILENAME).isSome
         then FS.removeF s.fs LOG_FILENAME else s.fs)
        LOG_FILENAME ⟨[csvHeaderLine], []⟩ := by
  by_cases hg : s.gyroEnabled = false <;> by_cases hm : s.imuOk = true <;>
    simp [startRecording, writeGyroflowCsvHeader, setGyroEnabled,
      hsd, hopen, hg, hm]

/-- The fields `recordingActive`, `bufferIndex` and `bufferFull` after
`startRecording`: the flag is untouched, the buffer is reset. -/
theorem startRecording_proj (s : LoggerState) :
    (startRecording s).recordingActive = s.recordingActive ∧
    (startRecording s).bufferIndex = 0 ∧
    (startRecording s).bufferFull = false := by
  by_cases hsd : s.sdCardAvailable = true <;>
    by_cases hopen : s.openOk = false <;>
    by_cases hg : s.gyroEnabled = false <;>
    by_cases hm : s.imuOk = true <;>
    simp [startRecording, writeGyroflowCsvHeader, setGyroEnabled,
      hsd, hopen, hg, hm]

/-- When the SD card is available but the open fails, `startRecording` still
removed any prior log file, and wrote nothing, so no log file exists. -/
theorem startRecording_fs_openFail (s : LoggerState)
    (hsd : s.sdCardAvailable = true) (hopen : s.openOk = false) :
    FS.lookupF (startRecording s).fs LOG_FILENAME = none := by
  by_cases hex : (FS.lookupF s.fs LOG_FILENAME).isSome = true <;>
    by_cases hg : s.gyroEnabled = false <;>
    by_cases hm : s.imuOk = true <;>
    simp [startRecording, writeGyroflowCsvHeader, setGyroEnabled,
      hsd, hopen, hex, hg, hm] <;>
    first
      | exact FS.lookupF_removeF_self s.fs LOG_FILENAME
      | exact Option.not_isSome_iff_eq_none.mp hex

/-- C2 counterexample: the header a session writes is the single column line
`csvHeaderLine`; its first (and only) line differs from "GYROFLOW IMU LOG",
so the log file does not begin with the multi-line header of section 6. -/
theorem header_counterexample :
    FS.lookupF (startRecording baseState).fs LOG_FILENAME =
      some ⟨[csvHeaderLine], []⟩ ∧
    csvHeaderLine ≠ gyroflowMagicLine := by
  exact ⟨rfl, by decide⟩

/-- C2 amended: every log file produced by a session begins with the single
fixed header line `csvHeaderLine` (the column names), byte-for-byte
identical for every session and every prior state. -/
theorem header_single_fixed_line (s : LoggerState)
    (hsd : s.sdCardAvailable = true) (hopen : s.openOk = true) :
    FS.lookupF (startRecording s).fs LOG_FILENAME =
      some ⟨[csvHeaderLine], []⟩ := by
  rw [startRecording_fs_eq s hsd hopen]
  exact FS.lookupF_writeTrunc_self _ _ _

/-- Witness for `header_single_fixed_line` at a filesystem already holding
numbered session files and a prior recording. -/
theorem header_single_fixed_line_witness :
    FS.lookupF (startRecording { baseState with fs := fsWithSessions }).fs
        LOG_FILENAME = some ⟨[csvHeaderLine], []⟩ :=
  header_single_fixed_line { baseState with fs := fsWithSessions } rfl rfl

/-- Concrete state whose filesystem holds sessions 00001..00003 plus a prior
recording under the fixed log file name. -/
def sessState : LoggerState := { baseState with fs := fsWithSessions }

/-- C1 counterexample: with 00001.csv through 00003.csv present, a new
`startRecording` does not select 00004.csv — no such file is created — and
it destroys the data a prior session wrote under the fixed name
`/GYRODATA.CSV`. -/
theorem naming_counterexample :
    FS.lookupF (startRecording sessState).fs file00004 = none ∧
    FS.lookupF sessState.fs LOG_FILENAME = some priorData ∧
    FS.lookupF (startRecording sessState).fs LOG_FILENAME =
      some ⟨[csvHeaderLine], []⟩ ∧
    priorData ≠ ⟨[csvHeaderLine], []⟩ := by
  refine ⟨rfl, rfl, rfl, ?_⟩
  intro h
  have := congrArg FileContent.recs h
  simp [priorData] at this

/-- C1 amended: `startRecording` always uses the single fixed file name
`LOG_FILENAME`, first deleting any existing file of that name, so each start
overwrites the prior session's data there; files under every other name are
left untouched (in particular no sequentially numbered name is created). -/
theorem start_fixed_filename (s : LoggerState)
    (hsd : s.sdCardAvailable = true) (hopen : s.openOk = true) :
    FS.lookupF (startRecording s).fs LOG_FILENAME =
      some ⟨[csvHeaderLine], []⟩ ∧
    ∀ name, name ≠ LOG_FILENAME →
      FS.lookupF (startRecording s).fs name = FS.lookupF s.fs name := by
  refine ⟨?_, ?_⟩
  · rw [startRecording_fs_eq s hsd hopen]
    exact FS.lookupF_writeTrunc_self _ _ _
  · intro name hne
    rw [startRecording_fs_eq s hsd hopen,
      FS.lookupF_writeTrunc_ne _ _ _ _ hne]
    split_ifs with h
    · exact FS.lookupF_removeF_ne _ _ _ hne
    · rfl

/-- Witness for `start_fixed_filename`: the numbered file 00001.csv is
untouched by a new start. -/
theorem start_fixed_filename_witness :
    FS.lookupF (startRecording sessState).fs file00001 =
      FS.lookupF sessState.fs file00001 :=
  (start_fixed_filename sessState rfl rfl).2 file00001 (by decide)

/-- Concrete state in which the SD card is present but opening files fails. -/
def openFailState : LoggerState := { baseState with openOk := false }

/-- C6 counterexample: selecting Start with the SD card present but the file
open failing leaves `recordingActive = true` — the session does not stay
Idle — even though no log file was created. -/
theorem open_failure_counterexample :
    (startStopToggle openFailState).recordingActive = true ∧
    FS.lookupF (startStopToggle openFailState).fs LOG_FILENAME = none := by
  exact ⟨rfl, rfl⟩

/-- C6 amended: when opening the session file fails, the error is only
logged and execution continues, but the session still transitions to
Recording (`recordingActive` becomes true); moreover the prior log file was
already removed, so afterwards no log file exists; the buffer is reset, and
no file handle stays open (the model's opens are self-closing). -/
theorem open_failure_still_recording (s : LoggerState)
    (hrec : s.recordingActive = false) (hsd : s.sdCardAvailable = true)
    (hopen : s.openOk = false) :
    (startStopToggle s).recordingActive = true ∧
    FS.lookupF (startStopToggle s).fs LOG_FILENAME = none ∧
    (startStopToggle s).bufferIndex = 0 ∧
    (startStopToggle s).bufferFull = false := by
  have hred : startStopToggle s =
      startRecording { s with recordingActive := true } := by
    unfold startStopToggle
    simp [hrec]
  rw [hred]
  obtain ⟨hA, hB, hC⟩ := startRecording_proj { s with recordingActive := true }
  refine ⟨by simpa using hA, ?_, hB, hC⟩
  exact startRecording_fs_openFail { s with recordingActive := true } hsd hopen

/-- Witness for `open_failure_still_recording` at a concrete state. -/
theorem open_failure_still_recording_witness :
    (startStopToggle openFailState).recordingActive = true ∧
    FS.lookupF (startStopToggle openFailState).fs LOG_FILENAME = none ∧
    (startStopToggle openFailState).bufferIndex = 0 ∧
    (startStopToggle openFailState).bufferFull = false :=
  open_failure_still_recording openFailState rfl rfl rfl

/-- Rounding a rational to six decimal digits and reading it back moves it
by at most 10^-6. -/
theorem round6_err (x : ℚ) :
    |((round (x * 1000000) : ℤ) : ℚ) / 1000000 - x| ≤ 1 / 1000000 := by
  have h := abs_sub_round (x * (1000000 : ℚ))
  rw [abs_sub_comm] at h
  have e : ((round (x * 1000000) : ℤ) : ℚ) / 1000000 - x
      = (((round (x * 1000000) : ℤ) : ℚ) - x * 1000000) / 1000000 := by
    ring
  rw [e, abs_div, abs_of_pos (by norm_num : (0 : ℚ) < 1000000)]
  calc |((round (x * 1000000) : ℤ) : ℚ) - x * 1000000| / 1000000
      ≤ (1 / 2) / 1000000 := by gcongr
    _ ≤ 1 / 1000000 := by norm_num

/-- Offsets obtained by saving and reloading: each component rounded to six
decimal digits. -/
def roundTripOffsets (o : CalibrationOffsets) : CalibrationOffsets :=
  ⟨((round (o.gx * 1000000) : ℤ) : ℚ) / 1000000,
   ((round (o.gy * 1000000) : ℤ) : ℚ) / 1000000,
   ((round (o.gz * 1000000) : ℤ) : ℚ) / 1000000,
   ((round (o.ax * 1000000) : ℤ) : ℚ) / 1000000,
   ((round (o.ay * 1000000) : ℤ) : ℚ) / 1000000,
   ((round (o.az * 1000000) : ℤ) : ℚ) / 1000000⟩

/-- C8 (spec-modelled): calibration persistence round-trips: `save` emits
exactly six decimal fields in the fixed order (gx,gy,gz,ax,ay,az), `load`
accepts them, and the reloaded offsets agree with the originals to within
10^-6 in every component, for all finite input triples. -/
theorem calibration_roundtrip (o : CalibrationOffsets) :
    ∃ o' : CalibrationOffsets,
      loadCalibration (saveCalibration o) = some o' ∧
      (saveCalibration o).length = 6 ∧
      |o'.gx - o.gx| ≤ 1 / 1000000 ∧ |o'.gy - o.gy| ≤ 1 / 1000000 ∧
      |o'.gz - o.gz| ≤ 1 / 1000000 ∧ |o'.ax - o.ax| ≤ 1 / 1000000 ∧
      |o'.ay - o.ay| ≤ 1 / 1000000 ∧ |o'.az - o.az| ≤ 1 / 1000000 :=
  ⟨roundTripOffsets o, rfl, rfl,
   round6_err o.gx, round6_err o.gy, round6_err o.gz,
   round6_err o.ax, round6_err o.ay, round6_err o.az⟩

/-- Appending a sample at the end of a run factors through `appendRaw`. -/
theorem appendAll_concat (rs : List RawSample) (r : RawSample)
    (s : LoggerState) :
    appendAll (rs ++ [r]) s = appendRaw r (appendAll rs s) := by
  simp [appendAll, List.foldl_append]

/-- Explicit form of one append when the gyro is enabled. -/
theorem appendRaw_eq (r : RawSample) (s : LoggerState)
    (hg : s.gyroEnabled = true) :
    appendRaw r s =
      { s with
        gyroBuffer := Function.update s.gyroBuffer s.bufferIndex (storedOf r),
        bufferIndex := (s.bufferIndex + 1) % GYRO_BUFFER_SIZE,
        bufferFull := if (s.bufferIndex + 1) % GYRO_BUFFER_SIZE = 0 then true
                      else s.bufferFull } := by
  unfold appendRaw readAndBufferGyroData storedOf
  simp [hg]

/-- State reached by appending `rs` to an empty buffer: the index is the
length modulo the capacity, the full flag records whether the capacity was
reached, the environment fields are untouched, and the slot holding the
i-th most recent sample (for `i < min rs.length GYRO_BUFFER_SIZE`) is
`(rs.length - 1 - i) % GYRO_BUFFER_SIZE`. -/
theorem appendAll_spec (rs : List RawSample) (s : LoggerState)
    (hg : s.gyroEnabled = true) (hidx : s.bufferIndex = 0)
    (hfull : s.bufferFull = false) :
    (appendAll rs s).gyroEnabled = true ∧
    (appendAll rs s).sdCardAvailable = s.sdCardAvailable ∧
    (appendAll rs s).openOk = s.openOk ∧
    (appendAll rs s).fs = s.fs ∧
    (appendAll rs s).bufferIndex = rs.length % GYRO_BUFFER_SIZE ∧
    ((appendAll rs s).bufferFull = true ↔ GYRO_BUFFER_SIZE ≤ rs.length) ∧
    ∀ i, i < min rs.length GYRO_BUFFER_SIZE →
      (appendAll rs s).gyroBuffer ((rs.length - 1 - i) % GYRO_BUFFER_SIZE) =
        storedOf (rs.getD (rs.length - 1 - i) default) := by
  induction rs using List.reverseRecOn with
  | nil =>
    refine ⟨hg, rfl, rfl, rfl, by simpa [appendAll] using hidx, ?_, ?_⟩
    · simp [appendAll, hfull, GYRO_BUFFER_SIZE]
    · intro i hi
      simp at hi
  | append_singleton l a ih =>
    obtain ⟨ihG, ihSd, ihOp, ihFs, ihIdx, ihFull, ihBuf⟩ := ih
    rw [appendAll_concat, appendRaw_eq a (appendAll l s) ihG]
    have hN : GYRO_BUFFER_SIZE = 1000 := rfl
    have hlen : (l ++ [a]).length = l.length + 1 := by simp
    refine ⟨ihG, ihSd, ihOp, ihFs, ?_, ?_, ?_⟩
    · simp only [hlen, ihIdx, Nat.mod_add_mod]
    · simp only [hlen, ihIdx, Nat.mod_add_mod]
      split_ifs with hz
      · simp only [true_iff]
        rw [hN] at hz ⊢
        omega
      · rw [ihFull]
        rw [hN] at hz ⊢
        omega
    · intro i hi
      rw [hlen] at hi
      rw [hlen]
      have hiA : i < l.length + 1 := lt_of_lt_of_le hi (min_le_left _ _)
      have hiB : i < GYRO_BUFFER_SIZE := lt_of_lt_of_le hi (min_le_right _ _)
      rw [hN] at hiB
      have hsub : l.length + 1 - 1 - i = l.length - i := by omega
      rw [hsub]
      by_cases h0 : i = 0
      · subst h0
        rw [Nat.sub_zero, ← ihIdx]
        dsimp only
        rw [Function.update_same]
        have hgd : (l ++ [a]).getD l.length default = a := by
          rw [List.getD_eq_getElem (l ++ [a]) default (by simp)]
          simp
        rw [hgd]
      · have hne : (l.length - i) % GYRO_BUFFER_SIZE ≠
            (appendAll l s).bufferIndex := by
          rw [ihIdx, hN]
          omega
        dsimp only
        rw [Function.update_noteq hne]
        have hi' : i - 1 < min l.length GYRO_BUFFER_SIZE := by
          rw [hN, Nat.lt_min]
          omega
        have hbuf := ihBuf (i - 1) hi'
        have hsub2 : l.length - 1 - (i - 1) = l.length - i := by omega
        rw [hsub2] at hbuf
        rw [hbuf]
        have hlt : l.length - i < l.length := by omega
        rw [List.getD_eq_getElem l default hlt,
          List.getD_eq_getElem (l ++ [a]) default (by simp; omega),
          List.getElem_append_left]

/-- The list a flush emits, for a buffer filled by appending `rs` to an
empty buffer, is exactly the last `GYRO_BUFFER_SIZE` appended records (all
of them when fewer), oldest first. -/
theorem flushedList_eq (rs : List RawSample) (s : LoggerState)
    (hg : s.gyroEnabled = true) (hidx : s.bufferIndex = 0)
    (hfull : s.bufferFull = false) :
    flushedList (appendAll rs s) =
      (rs.map storedOf).drop (rs.length - GYRO_BUFFER_SIZE) := by
  obtain ⟨-, -, -, -, hIdx, hFull, hBuf⟩ := appendAll_spec rs s hg hidx hfull
  have hN : GYRO_BUFFER_SIZE = 1000 := rfl
  by_cases hle : GYRO_BUFFER_SIZE ≤ rs.length
  · have hfullT : (appendAll rs s).bufferFull = true := hFull.mpr hle
    unfold flushedList
    rw [hfullT, hIdx]
    simp only [if_true]
    apply List.ext_getElem
    · simp only [List.length_map, List.length_range, List.length_drop]
      rw [hN] at hle ⊢
      omega
    · intro n h1 h2
      simp only [List.getElem_map, List.getElem_range, List.getElem_drop]
      have hn : n < GYRO_BUFFER_SIZE := by
        simpa using h1
      have hargs : n < GYRO_BUFFER_SIZE ∧ GYRO_BUFFER_SIZE ≤ rs.length :=
        ⟨hn, hle⟩
      have hb := hBuf (GYRO_BUFFER_SIZE - 1 - n)
        (by rw [hN] at hargs ⊢; rw [Nat.lt_min]; omega)
      have he1 : rs.length - 1 - (GYRO_BUFFER_SIZE - 1 - n)
          = rs.length - GYRO_BUFFER_SIZE + n := by
        rw [hN] at hargs ⊢
        omega
      rw [he1] at hb
      have he2 : (rs.length % GYRO_BUFFER_SIZE + n) % GYRO_BUFFER_SIZE
          = (rs.length - GYRO_BUFFER_SIZE + n) % GYRO_BUFFER_SIZE := by
        rw [hN] at hargs ⊢
        omega
      rw [he2, hb]
      have hbound : rs.length - GYRO_BUFFER_SIZE + n < rs.length := by
        rw [hN] at hargs ⊢
        omega
      rw [List.getD_eq_getElem rs default hbound]
  · have hlt : rs.length < GYRO_BUFFER_SIZE := lt_of_not_le hle
    have hfullF : (appendAll rs s).bufferFull = false := by
      rw [Bool.eq_false_iff]
      intro hT
      exact hle (hFull.mp hT)
    unfold flushedList
    rw [hfullF, hIdx]
    simp only [Bool.false_eq_true, if_false]
    rw [Nat.mod_eq_of_lt hlt, Nat.sub_eq_zero_of_le (le_of_lt hlt),
      List.drop_zero]
    apply List.ext_getElem
    · simp
    · intro n h1 h2
      simp only [List.getElem_map, List.getElem_range]
      have hn : n < rs.length := by simpa using h1
      have hb := hBuf (rs.length - 1 - n)
        (by rw [hN] at hlt ⊢; rw [Nat.lt_min]; omega)
      have he1 : rs.length - 1 - (rs.length - 1 - n) = n := by omega
      rw [he1] at hb
      have he2 : (0 + n) % GYRO_BUFFER_SIZE = n := by
        rw [hN] at hlt ⊢
        omega
      rw [Nat.mod_eq_of_lt (lt_trans hn hlt)] at hb
      rw [he2, hb, List.getD_eq_getElem rs default hn]

/-- C9: a flush of a non-empty buffer (reached by appending the samples `rs`
to an empty buffer) emits the buffered records in chronological, oldest
first order — exactly the last `GYRO_BUFFER_SIZE` appended records when the
ring has wrapped, all of them otherwise — appended to the log file, and on
success leaves the buffer empty (`bufferIndex = 0`, `bufferFull = false`). -/
theorem flush_chronological (rs : List RawSample) (s : LoggerState)
    (hne : rs ≠ []) (hg : s.gyroEnabled = true) (hidx : s.bufferIndex = 0)
    (hfull : s.bufferFull = false) (hsd : s.sdCardAvailable = true)
    (hopen : s.openOk = true) :
    writeGyroBufferToSD (appendAll rs s) =
      { appendAll rs s with
          fs := FS.appendRecs s.fs LOG_FILENAME
            ((rs.map storedOf).drop (rs.length - GYRO_BUFFER_SIZE)),
          bufferIndex := 0, bufferFull := false } := by
  obtain ⟨-, hSd, hOp, hFs, hIdx, hFull, -⟩ := appendAll_spec rs s hg hidx hfull
  have hlen0 : rs.length ≠ 0 := by
    simpa using hne
  have hc1 : ¬((appendAll rs s).sdCardAvailable = false ∨
      ((appendAll rs s).bufferFull = false ∧
       (appendAll rs s).bufferIndex = 0)) := by
    push_neg
    refine ⟨by rw [hSd, hsd]; simp, ?_⟩
    intro hBF
    rw [hIdx]
    have hlt : rs.length < GYRO_BUFFER_SIZE := by
      by_contra hge
      have hT := hFull.mpr (le_of_not_lt hge)
      rw [hBF] at hT
      exact absurd hT (by simp)
    rw [Nat.mod_eq_of_lt hlt]
    exact hlen0
  have hc2 : ¬((appendAll rs s).openOk = false) := by
    rw [hOp, hopen]
    simp
  unfold writeGyroBufferToSD
  rw [if_neg hc1, if_neg hc2, flushedList_eq rs s hg hidx hfull, hFs]

/-- First concrete raw sample for the flush witness. -/
def rawA : RawSample := ⟨1, 1, 0, 0, 0, 0, 0⟩

/-- Second concrete raw sample for the flush witness. -/
def rawB : RawSample := ⟨2, 0, 1, 0, 0, 0, 0⟩

/-- Witness for `flush_chronological` on two buffered samples. -/
theorem flush_chronological_witness :
    writeGyroBufferToSD (appendAll [rawA, rawB] baseState) =
      { appendAll [rawA, rawB] baseState with
          fs := FS.appendRecs baseState.fs LOG_FILENAME
            (([rawA, rawB].map storedOf).drop
              ([rawA, rawB].length - GYRO_BUFFER_SIZE)),
          bufferIndex := 0, bufferFull := false } :=
  flush_chronological [rawA, rawB] baseState (by simp) rfl rfl rfl rfl rfl

/-- One append leaves `recordingActive`, `gyroEnabled` and
`lastGyroLogTime` unchanged. -/
theorem appendRaw_pres (r : RawSample) (s : LoggerState) :
    (appendRaw r s).recordingActive = s.recordingActive ∧
    (appendRaw r s).gyroEnabled = s.gyroEnabled ∧
    (appendRaw r s).lastGyroLogTime = s.lastGyroLogTime := by
  unfold appendRaw readAndBufferGyroData
  split_ifs <;> simp

/-- One append keeps the buffer index below the capacity. -/
theorem appendRaw_idx_lt (r : RawSample) (s : LoggerState)
    (h : s.bufferIndex < GYRO_BUFFER_SIZE) :
    (appendRaw r s).bufferIndex < GYRO_BUFFER_SIZE := by
  unfold appendRaw
  by_cases hg : s.gyroEnabled = false
  · simpa [readAndBufferGyroData, hg] using h
  · simp only [readAndBufferGyroData, hg, if_false]
    exact Nat.mod_lt _ (by norm_num [GYRO_BUFFER_SIZE])

/-- A flush leaves `recordingActive`, `gyroEnabled` and `lastGyroLogTime`
unchanged. -/
theorem writeGyroBufferToSD_pres (s : LoggerState) :
    (writeGyroBufferToSD s).recordingActive = s.recordingActive ∧
    (writeGyroBufferToSD s).gyroEnabled = s.gyroEnabled ∧
    (writeGyroBufferToSD s).lastGyroLogTime = s.lastGyroLogTime := by
  unfold writeGyroBufferToSD
  split_ifs <;> simp

/-- A flush keeps the buffer index below the capacity. -/
theorem flush_idx_lt (s : LoggerState) (h : s.bufferIndex < GYRO_BUFFER_SIZE) :
    (writeGyroBufferToSD s).bufferIndex < GYRO_BUFFER_SIZE := by
  rcases flush_state_cases s with ⟨h1, _⟩ | heq
  · rw [h1]
    norm_num [GYRO_BUFFER_SIZE]
  · rw [heq]
    exact h

/-- Unsigned 32-bit subtraction agrees with plain subtraction when there is
no wraparound. -/
theorem usub32_eq_sub (a b : Nat) (hba : b ≤ a) (ha : a < UINT32_MOD) :
    usub32 a b = a - b := by
  have ha' : a < 4294967296 := ha
  unfold usub32 UINT32_MOD
  omega

/-- When the sampling condition does not hold, a loop pass is a no-op. -/
theorem loopGyroStep_not_fired (now : Nat) (r : RawSample) (s : LoggerState)
    (h : ¬(s.recordingActive = true ∧ s.gyroEnabled = true ∧
        GYRO_LOG_INTERVAL ≤ usub32 now s.lastGyroLogTime)) :
    loopGyroStep now r s = s := by
  unfold loopGyroStep
  by_cases h1 : s.recordingActive = true ∧ s.gyroEnabled = true
  · have h3 : ¬ GYRO_LOG_INTERVAL ≤ usub32 now s.lastGyroLogTime :=
      fun hc => h ⟨h1.1, h1.2, hc⟩
    rw [if_pos h1, if_neg h3]
  · rw [if_neg h1]

/-- When the sampling condition holds, a loop pass records the pass time and
keeps the flags and the buffer-index bound. -/
theorem loopGyroStep_fired_props (now : Nat) (r : RawSample) (s : LoggerState)
    (h1 : s.recordingActive = true) (h2 : s.gyroEnabled = true)
    (h3 : GYRO_LOG_INTERVAL ≤ usub32 now s.lastGyroLogTime)
    (hidx : s.bufferIndex < GYRO_BUFFER_SIZE) :
    (loopGyroStep now r s).recordingActive = true ∧
    (loopGyroStep now r s).gyroEnabled = true ∧
    (loopGyroStep now r s).lastGyroLogTime = now ∧
    (loopGyroStep now r s).bufferIndex < GYRO_BUFFER_SIZE := by
  have hstep : loopGyroStep now r s =
      (if (appendRaw r { s with lastGyroLogTime := now }).bufferFull = true
       then writeGyroBufferToSD (appendRaw r { s with lastGyroLogTime := now })
       else appendRaw r { s with lastGyroLogTime := now }) := by
    unfold loopGyroStep
    rw [if_pos ⟨h1, h2⟩, if_pos h3]
  by_cases hbf : (appendRaw r { s with lastGyroLogTime := now }).bufferFull
      = true
  · rw [hstep, if_pos hbf]
    obtain ⟨q1, q2, q3⟩ :=
      writeGyroBufferToSD_pres (appendRaw r { s with lastGyroLogTime := now })
    obtain ⟨p1, p2, p3⟩ := appendRaw_pres r { s with lastGyroLogTime := now }
    refine ⟨?_, ?_, ?_, ?_⟩
    · rw [q1, p1]
      exact h1
    · rw [q2, p2]
      exact h2
    · simp [q3, p3]
    · exact flush_idx_lt _ (appendRaw_idx_lt r _ hidx)
  · rw [hstep, if_neg hbf]
    obtain ⟨p1, p2, p3⟩ := appendRaw_pres r { s with lastGyroLogTime := now }
    refine ⟨?_, ?_, ?_, appendRaw_idx_lt r _ hidx⟩
    · rw [p1]
      exact h1
    · rw [p2]
      exact h2
    · simp [p3]

/-- Adding one sampling period below `T` advances the period count. -/
theorem div_step_le (T now last : Nat) (h1 : last + 1000 ≤ now)
    (h2 : now ≤ T) :
    1 + (T - now) / 1000 ≤ (T - last) / 1000 := by
  have h3 : (T - now) + 1000 ≤ T - last := by omega
  have e1 : 1 + (T - now) / 1000 = ((T - now) + 1000) / 1000 := by
    rw [Nat.add_div_right _ (by norm_num), Nat.add_comm]
  rw [e1]
  exact Nat.div_le_div_right h3

/-- C5: over any run of main-loop passes at non-decreasing `micros()` values
bounded by `T` (with no 32-bit wraparound), the number of samples read and
buffered is at most the number of elapsed sampling periods
`(T - lastGyroLogTime) / GYRO_LOG_INTERVAL` — excess ticks are coalesced and
lost — each pass contributes at most one sample, and the buffer index stays
within the capacity throughout. -/
theorem sample_coalescing (ps : List (Nat × RawSample)) (s : LoggerState)
    (T : Nat) (hT32 : T < UINT32_MOD)
    (hpair : List.Pairwise (fun a b => a ≤ b)
      (s.lastGyroLogTime :: ps.map Prod.fst))
    (hT : ∀ p ∈ ps, p.1 ≤ T) (hlastT : s.lastGyroLogTime ≤ T)
    (hidx : s.bufferIndex < GYRO_BUFFER_SIZE) :
    countSamples ps s ≤ (T - s.lastGyroLogTime) / GYRO_LOG_INTERVAL ∧
    countSamples ps s ≤ ps.length ∧
    (runPasses ps s).bufferIndex < GYRO_BUFFER_SIZE := by
  induction ps generalizing s with
  | nil =>
    refine ⟨Nat.zero_le _, Nat.zero_le _, ?_⟩
    simpa [runPasses] using hidx
  | cons p rest ih =>
    obtain ⟨now, r⟩ := p
    simp only [List.map_cons] at hpair
    have hpc := List.pairwise_cons.mp hpair
    have h0 : s.lastGyroLogTime ≤ now := hpc.1 now (by simp)
    have hpairTail : List.Pairwise (fun a b => a ≤ b)
        (now :: rest.map Prod.fst) := hpc.2
    have hpairSkip : List.Pairwise (fun a b => a ≤ b)
        (s.lastGyroLogTime :: rest.map Prod.fst) := by
      refine hpair.sublist ?_
      exact List.Sublist.cons₂ _ (List.sublist_cons_self _ _)
    have hnowT : now ≤ T := hT (now, r) (by simp)
    have hTtail : ∀ q ∈ rest, q.1 ≤ T :=
      fun q hq => hT q (List.mem_cons_of_mem _ hq)
    have hGI : GYRO_LOG_INTERVAL = 1000 := rfl
    by_cases hf : s.recordingActive = true ∧ s.gyroEnabled = true ∧
        GYRO_LOG_INTERVAL ≤ usub32 now s.lastGyroLogTime
    · obtain ⟨hr1, hr2, hr3⟩ := hf
      obtain ⟨g1, g2, g3, g4⟩ :=
        loopGyroStep_fired_props now r s hr1 hr2 hr3 hidx
      have hpair' : List.Pairwise (fun a b => a ≤ b)
          ((loopGyroStep now r s).lastGyroLogTime :: rest.map Prod.fst) := by
        rw [g3]
        exact hpairTail
      have hlast' : (loopGyroStep now r s).lastGyroLogTime ≤ T := by
        rw [g3]
        exact hnowT
      obtain ⟨c1, c2, c3⟩ :=
        ih (loopGyroStep now r s) hpair' hTtail hlast' g4
      have hsubeq : usub32 now s.lastGyroLogTime = now - s.lastGyroLogTime :=
        usub32_eq_sub now s.lastGyroLogTime h0 (lt_of_le_of_lt hnowT hT32)
      have hge : s.lastGyroLogTime + 1000 ≤ now := by
        rw [hGI, hsubeq] at hr3
        omega
      refine ⟨?_, ?_, ?_⟩
      · simp only [countSamples, if_pos (⟨hr1, hr2, hr3⟩ :
          s.recordingActive = true ∧ s.gyroEnabled = true ∧
          GYRO_LOG_INTERVAL ≤ usub32 now s.lastGyroLogTime)]
        rw [g3] at c1
        rw [hGI] at c1 ⊢
        calc 1 + countSamples rest (loopGyroStep now r s)
            ≤ 1 + (T - now) / 1000 := by omega
          _ ≤ (T - s.lastGyroLogTime) / 1000 := div_step_le T now _ hge hnowT
      · simp only [countSamples, if_pos (⟨hr1, hr2, hr3⟩ :
          s.recordingActive = true ∧ s.gyroEnabled = true ∧
          GYRO_LOG_INTERVAL ≤ usub32 now s.lastGyroLogTime), List.length_cons]
        omega
      · simp only [runPasses, List.foldl_cons]
        exact c3
    · have hstep0 : loopGyroStep now r s = s := loopGyroStep_not_fired now r s hf
      obtain ⟨c1, c2, c3⟩ := ih s hpairSkip hTtail hlastT hidx
      refine ⟨?_, ?_, ?_⟩
      · simp only [countSamples, if_neg hf, hstep0]
        omega
      · simp only [countSamples, if_neg hf, hstep0, List.length_cons]
        omega
      · simp only [runPasses, List.foldl_cons, hstep0]
        exact c3

/-- Witness for `sample_coalescing`: one pass at 2000 microseconds from a
freshly recording state. -/
theorem sample_coalescing_witness :
    countSamples [(2000, rawA)] { baseState with recordingActive := true } ≤
      (2000 - ({ baseState with recordingActive := true } :
        LoggerState).lastGyroLogTime) / GYRO_LOG_INTERVAL ∧
    countSamples [(2000, rawA)] { baseState with recordingActive := true } ≤
      ([(2000, rawA)] : List (Nat × RawSample)).length ∧
    (runPasses [(2000, rawA)]
        { baseState with recordingActive := true }).bufferIndex
      < GYRO_BUFFER_SIZE :=
  sample_coalescing [(2000, rawA)] { baseState with recordingActive := true }
    2000 (by decide)
    (by simp [baseState])
    (by intro p hp; rw [List.mem_singleton] at hp; subst hp; exact Nat.le_refl _)
    (by decide) (by decide)
